import Mathlib

/-!
Verification of the plugin-module loading layer
(`public/app/features/plugins/plugin_loader.ts`).

The file embeds the loader shallowly: external capabilities (the built-in
plugin registry, the generic SystemJS loader, the sandbox environment and
the plugin cache lookup) are passed as explicit function parameters, and
asynchronous results are modelled with `Except` (a rejected promise is an
`Except.error`). `importPluginModule` additionally returns a trace of the
capability invocations it performs, so ordering and never-invoked
properties can be stated. Classes of the external package `@grafana/data`
(`DataSourcePlugin`, `AppPlugin`) are modelled from the specification, as
marked on the respective definitions.
-/

set_option autoImplicit false

namespace PluginLoader

universe u v w

/-- An entry of the plugin cache (`loader/cache`): per-plugin version and
legacy-framework flag, as registered by `registerPluginInCache`, whose
`isAngular` argument is optional. -/
structure PluginCacheEntry where
  path : String
  version : String
  isAngular : Option Bool
deriving Repr, DecidableEq

/-- The `shouldFetch` hook installed on the SystemJS prototype
(plugin_loader.ts lines 33-37).  The external lookups `isHostedOnCDN`
(loader/utils) and `getPluginFromCache` (loader/cache) are passed as
parameters.  `Boolean(pluginInfo?.isAngular)` is `false` when there is no
cache entry, when the entry has no `isAngular` value, and when it is
`false`. -/
def shouldFetch (isHostedOnCDN : String → Bool)
    (getPluginFromCache : String → Option PluginCacheEntry)
    (url : String) : Bool :=
  isHostedOnCDN url || (((getPluginFromCache url).bind PluginCacheEntry.isAngular).getD false)

/-- A module value as the decorated SystemJS `import` hook sees it: either a
falsy value (`undefined`) or an object with the optional `__useDefault`
marker, a `default` field (`undef` when the field is absent) and an opaque
payload distinguishing module objects from one another. -/
inductive JsVal where
  | undef : JsVal
  | obj («__useDefault» : Bool) («default» : JsVal) (payload : Nat) : JsVal
deriving Repr, DecidableEq

/-- The then-callback of the decorated SystemJS `import`
(plugin_loader.ts lines 41-48): a truthy module carrying a truthy
`__useDefault` marker is replaced by its `default` field, any other value
passes through unchanged. -/
def importHookThen : JsVal → JsVal
  | .obj true d _ => d
  | m => m

/-- The decorated SystemJS `import` (plugin_loader.ts lines 39-48): the
original import's settled result with `importHookThen` applied to a
fulfilled value; a rejection passes through. -/
def decoratedImport {ε : Type u} (originalImport : Except ε JsVal) : Except ε JsVal :=
  originalImport.map importHookThen

/-- `true` exactly when the value is a module object whose `__useDefault`
marker is truthy. -/
def hasDefaultMarker : JsVal → Bool
  | .obj true _ _ => true
  | _ => false

/-- C1: `shouldFetch` returns `true` (fetch as text and eval in-process)
exactly when the URL is hosted on a recognized CDN domain or the
plugin-cache entry found for the URL has `isAngular = true`; in every other
case, including no cache entry, it returns `false` (load via script tag).
In particular a CDN-hosted URL yields `true` regardless of cache state. -/
theorem shouldFetch_cdn_or_angular (isHostedOnCDN : String → Bool)
    (getPluginFromCache : String → Option PluginCacheEntry) (url : String) :
    shouldFetch isHostedOnCDN getPluginFromCache url = true ↔
      (isHostedOnCDN url = true ∨
        ∃ e : PluginCacheEntry, getPluginFromCache url = some e ∧ e.isAngular = some true) := by
  unfold shouldFetch
  cases h : getPluginFromCache url with
  | none => simp [h]
  | some e =>
    cases ha : e.isAngular with
    | none => simp [h, ha, Option.bind]
    | some b =>
      cases b with
      | false => simp [h, ha, Option.bind]
      | true => simp [h, ha, Option.bind]

/-- C6: the decorated import resolves a module carrying a truthy
`__useDefault` marker to exactly the value of its `default` field, and
resolves every module value without that marker to the module value itself,
unchanged. -/
theorem decoratedImport_useDefault :
    (∀ (d : JsVal) (p : Nat),
        decoratedImport (ε := Unit) (.ok (.obj true d p)) = .ok d)
    ∧ (∀ m : JsVal, hasDefaultMarker m = false →
        decoratedImport (ε := Unit) (.ok m) = .ok m) := by
  constructor
  · intro d p
    rfl
  · intro m hm
    cases m with
    | undef => rfl
    | obj u d p =>
      cases u with
      | false => rfl
      | true => simp [hasDefaultMarker] at hm

/-- Witness for C6: evaluated on a concrete marked module and a concrete
unmarked module. -/
theorem decoratedImport_useDefault_witness :
    decoratedImport (ε := Unit) (.ok (.obj true .undef 7)) = .ok .undef
    ∧ decoratedImport (ε := Unit) (.ok (.obj false .undef 3)) = .ok (.obj false .undef 3) :=
  ⟨decoratedImport_useDefault.1 .undef 7,
   decoratedImport_useDefault.2 (.obj false .undef 3) (by decide)⟩

/-- The argument record of a plugin import request
(plugin_loader.ts lines 63-73): `version` and `isAngular` are optional. -/
structure PluginImportRequest where
  path : String
  pluginId : String
  version : Option String := none
  isAngular : Option Bool := none
deriving Repr, DecidableEq

/-- The argument record of `isFrontendSandboxSupported` (sandbox/utils). -/
structure SandboxArgs where
  isAngular : Option Bool
  pluginId : String
deriving Repr, DecidableEq

/-- An entry of the built-in plugin registry (`built_in_plugins`): either a
statically bundled module or an async factory for one
(plugin_loader.ts lines 78-86). -/
inductive BuiltInEntry (ε : Type u) (Mod : Type v) where
  | module (m : Mod)
  | factory (f : Unit → Except ε Mod)

/-- One capability invocation performed by `importPluginModule`.  The trace
of these events makes ordering and never-invoked properties statable. -/
inductive Event where
  | registerCache (path version : String) (isAngular : Option Bool)
  | resolvePath (path : String)
  | sandboxCheck (pluginId : String) (isAngular : Option Bool)
  | sandboxImport (pluginId : String)
  | systemImport (modulePath : String)
deriving Repr, DecidableEq

/-- The external capabilities `importPluginModule` consumes: the built-in
registry, `resolveModulePath` (loader/utils), `isFrontendSandboxSupported`
(sandbox/utils), `importPluginModuleInSandbox` (sandbox) and the generic
loader import `SystemJS.import`. -/
structure LoaderCaps (ε : Type u) (Mod : Type v) where
  builtInPlugins : String → Option (BuiltInEntry ε Mod)
  resolveModulePath : String → String
  isFrontendSandboxSupported : SandboxArgs → Except ε Bool
  importPluginModuleInSandbox : String → Except ε Mod
  systemJSImport : String → Except ε Mod

/-- The cache-registration step of `importPluginModule`
(plugin_loader.ts lines 74-76), as a trace: `if (version)` is a JS
truthiness test on a `string | undefined`, so `registerPluginInCache`
runs exactly when `version` is present and non-empty. -/
def cacheRegistration (req : PluginImportRequest) : List Event :=
  match req.version with
  | some version =>
      if version ≠ "" then [.registerCache req.path version req.isAngular] else []
  | none => []

/-- `importPluginModule` (plugin_loader.ts lines 63-96), returning the
settled result together with the trace of capability invocations.
A truthy built-in registry entry returns early (awaiting the factory when
the entry is a function); otherwise the module path is resolved, the
sandbox-support check runs (its rejection propagating), and the import is
dispatched to the sandbox or to the generic loader. -/
def importPluginModule {ε : Type u} {Mod : Type v}
    (caps : LoaderCaps ε Mod) (req : PluginImportRequest) :
    Except ε Mod × List Event :=
  let regTrace := cacheRegistration req
  match caps.builtInPlugins req.path with
  | some (.module m) => (.ok m, regTrace)
  | some (.factory f) => (f (), regTrace)
  | none =>
    let modulePath := caps.resolveModulePath req.path
    let t1 := regTrace ++ [.resolvePath req.path]
    match caps.isFrontendSandboxSupported ⟨req.isAngular, req.pluginId⟩ with
    | .error e => (.error e, t1 ++ [.sandboxCheck req.pluginId req.isAngular])
    | .ok true =>
        (caps.importPluginModuleInSandbox req.pluginId,
          t1 ++ [.sandboxCheck req.pluginId req.isAngular, .sandboxImport req.pluginId])
    | .ok false =>
        (caps.systemJSImport modulePath,
          t1 ++ [.sandboxCheck req.pluginId req.isAngular, .systemImport modulePath])

/-- `true` on the events that resolve or fetch a module for a request:
`resolveModulePath` and the generic loader import. -/
def isResolveOrFetch : Event → Bool
  | .resolvePath _ => true
  | .systemImport _ => true
  | _ => false

/-- `true` on `registerCache` events. -/
def isRegisterCache : Event → Bool
  | .registerCache _ _ _ => true
  | _ => false

/-- `true` on sandbox-import events. -/
def isSandboxImport : Event → Bool
  | .sandboxImport _ => true
  | _ => false

/-- `true` on generic-loader import events. -/
def isSystemImport : Event → Bool
  | .systemImport _ => true
  | _ => false

/-- `true` on sandbox-support check events. -/
def isSandboxCheck : Event → Bool
  | .sandboxCheck _ _ => true
  | _ => false

/-- Every event of the cache-registration step is a `registerCache` event,
for the request's own path and a present, non-empty version. -/
theorem mem_cacheRegistration {req : PluginImportRequest} {e : Event}
    (he : e ∈ cacheRegistration req) :
    ∃ v, req.version = some v ∧ v ≠ "" ∧ e = .registerCache req.path v req.isAngular := by
  unfold cacheRegistration at he
  cases hv : req.version with
  | none => rw [hv] at he; simp at he
  | some v =>
    rw [hv] at he
    by_cases hv' : v = ""
    · simp [hv'] at he
    · simp [hv'] at he
      exact ⟨v, rfl, hv', he⟩

/-- The trace of `importPluginModule` is the cache-registration step
followed by a tail containing no `registerCache` event. -/
theorem importPluginModule_trace_decomp {ε : Type u} {Mod : Type v}
    (caps : LoaderCaps ε Mod) (req : PluginImportRequest) :
    ∃ tail, (importPluginModule caps req).2 = cacheRegistration req ++ tail
      ∧ ∀ e ∈ tail, isRegisterCache e = false := by
  unfold importPluginModule
  cases hb : caps.builtInPlugins req.path with
  | none =>
    cases hs : caps.isFrontendSandboxSupported ⟨req.isAngular, req.pluginId⟩ with
    | error err =>
      refine ⟨[.resolvePath req.path, .sandboxCheck req.pluginId req.isAngular], by simp [hb, hs], ?_⟩
      intro e he
      simp at he
      rcases he with h | h <;> subst h <;> rfl
    | ok b =>
      cases b with
      | true =>
        refine ⟨[.resolvePath req.path, .sandboxCheck req.pluginId req.isAngular,
          .sandboxImport req.pluginId], by simp [hb, hs], ?_⟩
        intro e he
        simp at he
        rcases he with h | h | h <;> subst h <;> rfl
      | false =>
        refine ⟨[.resolvePath req.path, .sandboxCheck req.pluginId req.isAngular,
          .systemImport (caps.resolveModulePath req.path)], by simp [hb, hs], ?_⟩
        intro e he
        simp at he
        rcases he with h | h | h <;> subst h <;> rfl
  | some b =>
    cases b with
    | module m => exact ⟨[], by simp [hb], by intro e he; simp at he⟩
    | factory f => exact ⟨[], by simp [hb], by intro e he; simp at he⟩

/-- Modelled from the spec: `isFrontendSandboxSupported` (sandbox/utils)
is not among the sources.  Per the spec the capability combines browser
engine support detection with per-plugin eligibility, and legacy
(Angular) plugins are never sandboxed; `envSupport` stands for the
environment detection part. -/
def isFrontendSandboxSupportedModel {ε : Type u} (envSupport : String → Except ε Bool)
    (args : SandboxArgs) : Except ε Bool :=
  if args.isAngular = some true then .ok false else envSupport args.pluginId

/-- A concrete capability record used by the witnesses: one built-in
module under the path `core:plugin/testdata`, everything else resolved
and loaded through the generic loader, sandbox unsupported. -/
def demoCaps : LoaderCaps String Nat where
  builtInPlugins := fun p =>
    if p = "core:plugin/testdata" then some (.module 42) else none
  resolveModulePath := fun p => p ++ "/module.js"
  isFrontendSandboxSupported := fun _ => .ok false
  importPluginModuleInSandbox := fun _ => .ok 0
  systemJSImport := fun _ => .ok 1

/-- A capability record whose sandbox-support check fails, for the
error-propagation witness. -/
def errCaps : LoaderCaps String Nat where
  builtInPlugins := fun _ => none
  resolveModulePath := fun p => p ++ "/module.js"
  isFrontendSandboxSupported := fun _ => .error "sandbox support check failed"
  importPluginModuleInSandbox := fun _ => .ok 0
  systemJSImport := fun _ => .ok 1

/-- A capability record using the spec-modelled sandbox-support check over
an environment detection that claims sandboxing is always supported. -/
def angularCaps : LoaderCaps String Nat where
  builtInPlugins := fun _ => none
  resolveModulePath := fun p => p ++ "/module.js"
  isFrontendSandboxSupported := isFrontendSandboxSupportedModel (fun _ => .ok true)
  importPluginModuleInSandbox := fun _ => .ok 0
  systemJSImport := fun _ => .ok 1

/-- C4: for a path present in the built-in registry, `importPluginModule`
returns the registered module (awaiting the registered async factory when
the entry is a function), and performs no path resolution, no generic
loader import, no sandbox-support check and no sandbox import — its trace
holds at most the cache-registration event. -/
theorem importPluginModule_builtin {ε : Type u} {Mod : Type v}
    (caps : LoaderCaps ε Mod) (req : PluginImportRequest) (b : BuiltInEntry ε Mod)
    (hb : caps.builtInPlugins req.path = some b) :
    (importPluginModule caps req).1
        = (match b with | .module m => Except.ok m | .factory f => f ())
    ∧ ∀ e ∈ (importPluginModule caps req).2, isRegisterCache e = true := by
  constructor
  · cases b with
    | module m => simp [importPluginModule, hb]
    | factory f => simp [importPluginModule, hb]
  · intro e he
    have htrace : (importPluginModule caps req).2 = cacheRegistration req := by
      cases b with
      | module m => simp [importPluginModule, hb]
      | factory f => simp [importPluginModule, hb]
    rw [htrace] at he
    obtain ⟨v, _, _, hee⟩ := mem_cacheRegistration he
    subst hee
    rfl

/-- Witness for C4: the built-in path of `demoCaps` returns the bundled
module. -/
theorem importPluginModule_builtin_witness :
    (importPluginModule demoCaps ⟨"core:plugin/testdata", "testdata", none, none⟩).1
      = .ok 42 :=
  (importPluginModule_builtin demoCaps ⟨"core:plugin/testdata", "testdata", none, none⟩
    (.module 42) rfl).1

/-- Counterexample for C5: a request whose `version` is present but is the
empty string never registers anything in the plugin cache, because
`if (version)` tests JS truthiness and the empty string is falsy. -/
theorem importPluginModule_empty_version_counterexample :
    (importPluginModule demoCaps ⟨"plugins/foo/module", "foo", some "", none⟩).1 = .ok 1
    ∧ ∀ e ∈ (importPluginModule demoCaps ⟨"plugins/foo/module", "foo", some "", none⟩).2,
        isRegisterCache e = false :=
  ⟨rfl, by decide⟩

/-- C5 as amended: when `version` is present and non-empty the
cache-registration event is the first event of the trace — in particular
it precedes every path-resolution and generic-loader import event — and
when `version` is absent or empty no cache registration happens at all. -/
theorem importPluginModule_cache_order {ε : Type u} {Mod : Type v}
    (caps : LoaderCaps ε Mod) (req : PluginImportRequest) :
    (∀ v, req.version = some v → v ≠ "" →
      (importPluginModule caps req).2.head?
          = some (.registerCache req.path v req.isAngular)
      ∧ ∀ (i : Nat) (e : Event), (importPluginModule caps req).2.get? i = some e →
          isResolveOrFetch e = true → 0 < i)
    ∧ ((req.version = none ∨ req.version = some "") →
      ∀ e ∈ (importPluginModule caps req).2, isRegisterCache e = false) := by
  obtain ⟨tail, htr, htail⟩ := importPluginModule_trace_decomp caps req
  constructor
  · intro v hv hne
    have hreg : cacheRegistration req = [.registerCache req.path v req.isAngular] := by
      unfold cacheRegistration
      rw [hv]
      simp [hne]
    rw [htr, hreg]
    constructor
    · rfl
    · intro i e hi hfetch
      cases i with
      | zero =>
        simp at hi
        subst hi
        simp [isResolveOrFetch] at hfetch
      | succ n => exact Nat.succ_pos n
  · intro hv e he
    have hreg : cacheRegistration req = [] := by
      unfold cacheRegistration
      rcases hv with h | h <;> simp [h]
    rw [htr, hreg] at he
    simp at he
    exact htail e he

/-- Witness for C5 (amended): a concrete request with version `1.0.0`
has the cache-registration event at the head of its trace. -/
theorem importPluginModule_cache_order_witness :
    (importPluginModule demoCaps ⟨"plugins/bar/module", "bar", some "1.0.0", some false⟩).2.head?
      = some (.registerCache "plugins/bar/module" "1.0.0" (some false)) :=
  ((importPluginModule_cache_order demoCaps
      ⟨"plugins/bar/module", "bar", some "1.0.0", some false⟩).1
    "1.0.0" rfl (by decide)).1

/-- C8: for a non-built-in request, when the sandbox-support check fails,
`importPluginModule` fails with that same error: neither the sandbox
path nor the generic-loader import runs, and the failure is not treated
as "not supported". -/
theorem importPluginModule_sandboxCheck_error {ε : Type u} {Mod : Type v}
    (caps : LoaderCaps ε Mod) (req : PluginImportRequest) (err : ε)
    (hb : caps.builtInPlugins req.path = none)
    (hs : caps.isFrontendSandboxSupported ⟨req.isAngular, req.pluginId⟩ = .error err) :
    (importPluginModule caps req).1 = .error err
    ∧ ∀ e ∈ (importPluginModule caps req).2,
        isSandboxImport e = false ∧ isSystemImport e = false := by
  have htrace : (importPluginModule caps req).2
      = cacheRegistration req
        ++ [.resolvePath req.path, .sandboxCheck req.pluginId req.isAngular] := by
    simp [importPluginModule, hb, hs]
  constructor
  · simp [importPluginModule, hb, hs]
  · intro e he
    rw [htrace] at he
    rcases List.mem_append.mp he with h | h
    · obtain ⟨v, _, _, hee⟩ := mem_cacheRegistration h
      subst hee
      exact ⟨rfl, rfl⟩
    · simp at h
      rcases h with h | h <;> subst h <;> exact ⟨rfl, rfl⟩

/-- Witness for C8: with `errCaps` the check's error is the import's
result. -/
theorem importPluginModule_sandboxCheck_error_witness :
    (importPluginModule errCaps ⟨"plugins/foo/module", "foo", none, none⟩).1
      = .error "sandbox support check failed" :=
  (importPluginModule_sandboxCheck_error errCaps ⟨"plugins/foo/module", "foo", none, none⟩
    "sandbox support check failed" rfl rfl).1

/-- C9: with the spec-modelled support check, a non-built-in request
flagged `isAngular = true` never selects the sandbox path — whatever the
environment detection would report — and the import proceeds through the
generic loader on the resolved module path. -/
theorem importPluginModule_angular_never_sandboxed {ε : Type u} {Mod : Type v}
    (caps : LoaderCaps ε Mod) (envSupport : String → Except ε Bool)
    (req : PluginImportRequest)
    (hcap : caps.isFrontendSandboxSupported = isFrontendSandboxSupportedModel envSupport)
    (hb : caps.builtInPlugins req.path = none)
    (ha : req.isAngular = some true) :
    (importPluginModule caps req).1 = caps.systemJSImport (caps.resolveModulePath req.path)
    ∧ ∀ e ∈ (importPluginModule caps req).2, isSandboxImport e = false := by
  have hs : caps.isFrontendSandboxSupported ⟨req.isAngular, req.pluginId⟩ = .ok false := by
    rw [hcap]
    simp [isFrontendSandboxSupportedModel, ha]
  have htrace : (importPluginModule caps req).2
      = cacheRegistration req
        ++ [.resolvePath req.path, .sandboxCheck req.pluginId req.isAngular,
            .systemImport (caps.resolveModulePath req.path)] := by
    simp [importPluginModule, hb, hs]
  constructor
  · simp [importPluginModule, hb, hs]
  · intro e he
    rw [htrace] at he
    rcases List.mem_append.mp he with h | h
    · obtain ⟨v, _, _, hee⟩ := mem_cacheRegistration h
      subst hee
      rfl
    · simp at h
      rcases h with h | h | h <;> subst h <;> rfl

/-- Witness for C9: an Angular-flagged request under `angularCaps`, whose
environment detection always reports support, still imports through the
generic loader. -/
theorem importPluginModule_angular_never_sandboxed_witness :
    (importPluginModule angularCaps ⟨"plugins/ng/module", "ng", none, some true⟩).1
      = angularCaps.systemJSImport (angularCaps.resolveModulePath "plugins/ng/module") :=
  (importPluginModule_angular_never_sandboxed angularCaps (fun _ => .ok true)
    ⟨"plugins/ng/module", "ng", none, some true⟩ rfl rfl rfl).1

/-- The `info` part of plugin metadata used by the adapters:
`meta.info?.version`. -/
structure PluginInfo where
  version : String
deriving Repr, DecidableEq

/-- The `angular` part of plugin metadata used by the adapters:
`meta.angular?.detected`. -/
structure AngularMeta where
  detected : Bool
deriving Repr, DecidableEq

/-- The slice of plugin metadata the adapters read
(plugin_loader.ts lines 99-103 and 127-131): `module`, `id` and the
optional `info` and `angular` records. -/
structure PluginMeta where
  id : String
  module : String
  info : Option PluginInfo := none
  angular : Option AngularMeta := none
deriving Repr, DecidableEq

/-- The import request both adapters build from metadata: path from
`meta.module`, version from `meta.info?.version`, Angular flag from
`meta.angular?.detected` and the plugin id from `meta.id`. -/
def requestFromMeta (meta : PluginMeta) : PluginImportRequest :=
  { path := meta.module
    pluginId := meta.id
    version := meta.info.map PluginInfo.version
    isAngular := meta.angular.map AngularMeta.detected }

/-- The exports of a loaded plugin module as the adapters inspect them:
an optional pre-built `plugin` object of type `P`, an optional legacy
`Datasource` constructor of type `C`, and the module's remaining legacy
exports of type `L` (what `setComponentsFromLegacyExports` consumes). -/
structure ModuleExports (P C L : Type) where
  plugin : Option P := none
  Datasource : Option C := none
  legacy : L

/-- Modelled from the spec: the `DataSourcePlugin` class of
`@grafana/data` is not among the sources.  Per the spec the canonical
data-source plugin object holds a constructor reference (or is a
pre-built instance), legacy-exports-derived component bindings, and a
`meta` field stamped after construction. -/
structure DataSourcePlugin (C L : Type) where
  DatasourceCtor : Option C := none
  components : Option L := none
  meta : Option PluginMeta := none

/-- Modelled from the spec: `new DataSourcePlugin(ctor)` wraps the legacy
`Datasource` constructor; no components and no metadata yet. -/
def DataSourcePlugin.new {C L : Type} (ctor : C) : DataSourcePlugin C L :=
  { DatasourceCtor := some ctor }

/-- Modelled from the spec: `setComponentsFromLegacyExports` populates
the plugin object's UI component bindings from the module's legacy
exports. -/
def DataSourcePlugin.setComponentsFromLegacyExports {C L P : Type}
    (p : DataSourcePlugin C L) (exports : ModuleExports P C L) : DataSourcePlugin C L :=
  { p with components := some exports.legacy }

/-- A failure of a typed import adapter: either the underlying module
load rejected, or the adapter itself threw with a message. -/
inductive LoadError (ε : Type u) where
  | importFailed (e : ε)
  | thrown (msg : String)

/-- The error message thrown by `importDataSourcePlugin` when the module
has neither export shape (plugin_loader.ts line 122). -/
def missingExportMsg : String :=
  "Plugin module is missing DataSourcePlugin or Datasource constructor export"

/-- `importDataSourcePlugin` (plugin_loader.ts lines 98-124): import the
module for the metadata's request, then adopt a truthy `plugin` export
directly, else wrap a truthy `Datasource` export via the
`DataSourcePlugin` constructor and populate components from the legacy
exports, else throw; the adopted or constructed object is stamped with
the input metadata. -/
def importDataSourcePlugin {ε : Type u} {C L : Type}
    (caps : LoaderCaps ε (ModuleExports (DataSourcePlugin C L) C L))
    (meta : PluginMeta) :
    Except (LoadError ε) (DataSourcePlugin C L) × List Event :=
  let r := importPluginModule caps (requestFromMeta meta)
  match r.1 with
  | .error e => (.error (.importFailed e), r.2)
  | .ok pluginExports =>
    match pluginExports.plugin with
    | some dsPlugin => (.ok { dsPlugin with meta := some meta }, r.2)
    | none =>
      match pluginExports.Datasource with
      | some ctor =>
          let dsPlugin :=
            (DataSourcePlugin.new (L := L) ctor).setComponentsFromLegacyExports pluginExports
          (.ok { dsPlugin with meta := some meta }, r.2)
      | none => (.error (.thrown missingExportMsg), r.2)

/-- Modelled from the spec: the `AppPlugin` class of `@grafana/data` is
not among the sources.  Per the spec the canonical app plugin object is
default-constructible, has an `init(meta)` hook (whose invocations the
model records in order), a `meta` field, and legacy component
bindings. -/
structure AppPlugin (L : Type) where
  initCalls : List PluginMeta := []
  meta : Option PluginMeta := none
  components : Option L := none

/-- Modelled from the spec: `new AppPlugin()` — the default-constructed
app plugin: no `init` calls yet, no metadata, no components. -/
def AppPlugin.new {L : Type} : AppPlugin L := {}

/-- Modelled from the spec: the `init(meta)` hook; the model records the
invocation. -/
def AppPlugin.init {L : Type} (p : AppPlugin L) (meta : PluginMeta) : AppPlugin L :=
  { p with initCalls := p.initCalls ++ [meta] }

/-- Modelled from the spec: `setComponentsFromLegacyExports` for app
plugins, populating component bindings from the module's legacy
exports. -/
def AppPlugin.setComponentsFromLegacyExports {L P C : Type}
    (p : AppPlugin L) (exports : ModuleExports P C L) : AppPlugin L :=
  { p with components := some exports.legacy }

/-- `importAppPlugin` (plugin_loader.ts lines 126-139): import the module
for the metadata's request, take a truthy `plugin` export or a
default-constructed `AppPlugin`, call `init(meta)`, stamp `meta`, and
populate the legacy component bindings; an import rejection
propagates. -/
def importAppPlugin {ε : Type u} {C L : Type}
    (caps : LoaderCaps ε (ModuleExports (AppPlugin L) C L))
    (meta : PluginMeta) :
    Except ε (AppPlugin L) × List Event :=
  let r := importPluginModule caps (requestFromMeta meta)
  match r.1 with
  | .error e => (.error e, r.2)
  | .ok pluginExports =>
    let plugin : AppPlugin L :=
      match pluginExports.plugin with
      | some p => p
      | none => AppPlugin.new
    let plugin := plugin.init meta
    let plugin := { plugin with meta := some meta }
    let plugin := plugin.setComponentsFromLegacyExports pluginExports
    (.ok plugin, r.2)

/-- A concrete metadata record used by the adapter witnesses. -/
def demoMeta : PluginMeta :=
  { id := "foo", module := "plugins/foo/module", info := some ⟨"1.0.0"⟩, angular := none }

/-- A capability record for the data-source adapter witnesses, loading
the given module exports through the generic loader. -/
def dsCaps (m : ModuleExports (DataSourcePlugin String Nat) String Nat) :
    LoaderCaps String (ModuleExports (DataSourcePlugin String Nat) String Nat) where
  builtInPlugins := fun _ => none
  resolveModulePath := fun p => p ++ "/module.js"
  isFrontendSandboxSupported := fun _ => .ok false
  importPluginModuleInSandbox := fun _ => .error "no sandbox"
  systemJSImport := fun _ => .ok m

/-- A capability record for the app adapter witness, loading the given
module exports through the generic loader. -/
def appCaps (m : ModuleExports (AppPlugin Nat) Unit Nat) :
    LoaderCaps String (ModuleExports (AppPlugin Nat) Unit Nat) where
  builtInPlugins := fun _ => none
  resolveModulePath := fun p => p ++ "/module.js"
  isFrontendSandboxSupported := fun _ => .ok false
  importPluginModuleInSandbox := fun _ => .error "no sandbox"
  systemJSImport := fun _ => .ok m

/-- C2: when the loaded module's exports have no `plugin` field but have a
`Datasource` field, `importDataSourcePlugin` returns a `DataSourcePlugin`
constructed from that constructor, with component bindings populated from
the module's legacy exports and with `meta` equal to the input
metadata. -/
theorem importDataSourcePlugin_datasource_export {ε : Type u} {C L : Type}
    (caps : LoaderCaps ε (ModuleExports (DataSourcePlugin C L) C L)) (meta : PluginMeta)
    (exports : ModuleExports (DataSourcePlugin C L) C L) (ctor : C)
    (h : (importPluginModule caps (requestFromMeta meta)).1 = .ok exports)
    (hp : exports.plugin = none) (hd : exports.Datasource = some ctor) :
    (importDataSourcePlugin caps meta).1
      = .ok { DatasourceCtor := some ctor
              components := some exports.legacy
              meta := some meta } := by
  simp [importDataSourcePlugin, h, hp, hd, DataSourcePlugin.new,
    DataSourcePlugin.setComponentsFromLegacyExports]

/-- Witness for C2: a module exporting only a `Datasource` constructor. -/
theorem importDataSourcePlugin_datasource_export_witness :
    (importDataSourcePlugin (dsCaps ⟨none, some "Ctor", 99⟩) demoMeta).1
      = .ok { DatasourceCtor := some "Ctor", components := some 99, meta := some demoMeta } :=
  importDataSourcePlugin_datasource_export (dsCaps ⟨none, some "Ctor", 99⟩) demoMeta
    ⟨none, some "Ctor", 99⟩ "Ctor" rfl rfl rfl

/-- C3: when the loaded module's exports have neither a `plugin` field nor
a `Datasource` field, `importDataSourcePlugin` fails with the descriptive
missing-export error, returns no plugin object, and performs no retry:
its trace is exactly that of the single underlying import. -/
theorem importDataSourcePlugin_missing_export {ε : Type u} {C L : Type}
    (caps : LoaderCaps ε (ModuleExports (DataSourcePlugin C L) C L)) (meta : PluginMeta)
    (exports : ModuleExports (DataSourcePlugin C L) C L)
    (h : (importPluginModule caps (requestFromMeta meta)).1 = .ok exports)
    (hp : exports.plugin = none) (hd : exports.Datasource = none) :
    (importDataSourcePlugin caps meta).1 = .error (.thrown missingExportMsg)
    ∧ (importDataSourcePlugin caps meta).2
        = (importPluginModule caps (requestFromMeta meta)).2 := by
  constructor
  · simp [importDataSourcePlugin, h, hp, hd]
  · simp [importDataSourcePlugin, h, hp, hd]

/-- Witness for C3: a module with neither export shape. -/
theorem importDataSourcePlugin_missing_export_witness :
    (importDataSourcePlugin (dsCaps ⟨none, none, 0⟩) demoMeta).1
      = .error (.thrown missingExportMsg) :=
  (importDataSourcePlugin_missing_export (dsCaps ⟨none, none, 0⟩) demoMeta
    ⟨none, none, 0⟩ rfl rfl rfl).1

/-- C10: when the loaded module's exports have both a `plugin` field and a
`Datasource` field, `importDataSourcePlugin` adopts the pre-built
`plugin` object — only its `meta` is stamped, so the `Datasource`
constructor is ignored and its component bindings are left untouched
(`setComponentsFromLegacyExports` is not applied to it): `plugin` takes
precedence over `Datasource`. -/
theorem importDataSourcePlugin_plugin_precedence {ε : Type u} {C L : Type}
    (caps : LoaderCaps ε (ModuleExports (DataSourcePlugin C L) C L)) (meta : PluginMeta)
    (exports : ModuleExports (DataSourcePlugin C L) C L)
    (p : DataSourcePlugin C L) (ctor : C)
    (h : (importPluginModule caps (requestFromMeta meta)).1 = .ok exports)
    (hp : exports.plugin = some p) (_hd : exports.Datasource = some ctor) :
    (importDataSourcePlugin caps meta).1 = .ok { p with meta := some meta } := by
  simp [importDataSourcePlugin, h, hp]

/-- Witness for C10: a module exporting both shapes keeps the pre-built
object's own constructor reference and components. -/
theorem importDataSourcePlugin_plugin_precedence_witness :
    (importDataSourcePlugin
        (dsCaps ⟨some ⟨none, some 5, none⟩, some "ignored", 7⟩) demoMeta).1
      = .ok { DatasourceCtor := none, components := some 5, meta := some demoMeta } :=
  importDataSourcePlugin_plugin_precedence
    (dsCaps ⟨some ⟨none, some 5, none⟩, some "ignored", 7⟩) demoMeta
    ⟨some ⟨none, some 5, none⟩, some "ignored", 7⟩ ⟨none, some 5, none⟩ "ignored" rfl rfl rfl

/-- C7: when the loaded module's exports have no `plugin` field,
`importAppPlugin` returns a default-constructed `AppPlugin` whose `init`
hook was called exactly once, with the supplied metadata, whose `meta`
equals the supplied metadata, and whose legacy component bindings come
from the module's exports. -/
theorem importAppPlugin_default_constructed {ε : Type u} {C L : Type}
    (caps : LoaderCaps ε (ModuleExports (AppPlugin L) C L)) (meta : PluginMeta)
    (exports : ModuleExports (AppPlugin L) C L)
    (h : (importPluginModule caps (requestFromMeta meta)).1 = .ok exports)
    (hp : exports.plugin = none) :
    (importAppPlugin caps meta).1
      = .ok { initCalls := [meta], meta := some meta, components := some exports.legacy } := by
  simp [importAppPlugin, h, hp, AppPlugin.new, AppPlugin.init,
    AppPlugin.setComponentsFromLegacyExports]

/-- Witness for C7: a module without a `plugin` export. -/
theorem importAppPlugin_default_constructed_witness :
    (importAppPlugin (appCaps ⟨none, none, 3⟩) demoMeta).1
      = .ok { initCalls := [demoMeta], meta := some demoMeta, components := some 3 } :=
  importAppPlugin_default_constructed (appCaps ⟨none, none, 3⟩) demoMeta
    ⟨none, none, 3⟩ rfl rfl

end PluginLoader
